import Mathlib

/-!
Verification of the signal-evaluation core of the trading_alert_system
repository: src/core/indicators.py, src/core/patterns.py and
src/core/trading_engine.py, embedded shallowly in Lean 4.

Modelling conventions.  Python floats are modelled as exact rationals
(the constants appearing in the code and in its scenarios are all
decimal, so no rounding behaviour is involved); values that can be the
Python None are Option; a pandas DataFrame of OHLCV rows is a List Bar
in chronological order; the processed_candles set of strings in the engine
is a Finset CandleKey; the wall clock (datetime.now in the configured
timezone) is injected as an explicit Timestamp parameter, and the two
zerodha_service.fetch_historical_data results are injected as the two
bar-list parameters of process_symbol.
-/

namespace TradingAlert

/-- Calendar date, as produced by datetime.date in the source. -/
structure Date where
  year : Nat
  month : Nat
  day : Nat
  deriving DecidableEq, Repr

/-- Numeric rendering YYYYMMDD of a date.  The source compares dates
both as datetime.date objects (calendar order) and as strftime
%Y%m%d strings; on real dates the two orders agree with the numeric
order of this key, which is used for every date comparison that is an
order comparison.  Date equality is structural equality. -/
def Date.key (d : Date) : Nat := d.year * 10000 + d.month * 100 + d.day

/-- Wall-clock timestamp in the single configured timezone
(settings.TIMEZONE). -/
structure Timestamp where
  date : Date
  hour : Nat
  minute : Nat
  second : Nat
  deriving DecidableEq, Repr

/-- One OHLCV row of the DataFrames returned by
zerodha_service.fetch_historical_data.  The column named open in the
source is called o here because open is a Lean keyword. -/
structure Bar where
  ts : Timestamp
  o : ℚ
  high : ℚ
  low : ℚ
  close : ℚ
  volume : ℚ
  deriving DecidableEq, Repr

/-- The four pattern names returned by
CandlestickPatterns.detect_pattern (the source strings Green_Hammer,
Red_Hammer, Inverted_Hammer and Inverted_Green_Hammer). -/
inductive Pattern where
  | greenHammer
  | redHammer
  | invertedHammer
  | invertedGreenHammer
  deriving DecidableEq, Repr

/-- The ohlc dict handed to detect_pattern.  A field is none when the
entry is missing or not numeric: a missing key raises KeyError, which
the function catches and turns into None, and a non-numeric entry
fails the isinstance check, which also yields None, so Option collapses
both failure modes the way the source does. -/
structure Ohlc where
  o : Option ℚ
  high : Option ℚ
  low : Option ℚ
  close : Option ℚ
  deriving DecidableEq, Repr

/-- CandlestickPatterns.detect_pattern, patterns.py lines 11 to 65:
four rules tried in order, first match returned, None otherwise. -/
def detect_pattern (ohlc : Ohlc) : Option Pattern :=
  match ohlc.o, ohlc.high, ohlc.low, ohlc.close with
  | some o, some h, some l, some c =>
    if c > o ∧ o - l > 2 * (c - o) ∧ h ≥ c ∧ o - l > h - c then
      some Pattern.greenHammer
    else if c < o ∧ c - l > 2 * (o - c) ∧ h ≥ o ∧ c - l > h - o then
      some Pattern.redHammer
    else if c < o ∧ h - o > 2 * (o - c) ∧ l ≤ c ∧ h - o > c - l then
      some Pattern.invertedHammer
    else if c > o ∧ h - c > 2 * (c - o) ∧ l ≤ o ∧ h - c > o - l then
      some Pattern.invertedGreenHammer
    else
      none
  | _, _, _, _ => none

/-- CandlestickPatterns.is_bullish_pattern: membership of the pattern
string in the pair Green_Hammer, Red_Hammer; a None pattern is never a
member. -/
def is_bullish_pattern : Option Pattern → Bool
  | some Pattern.greenHammer => true
  | some Pattern.redHammer => true
  | _ => false

/-- CandlestickPatterns.is_bearish_pattern: membership in the pair
Inverted_Hammer, Inverted_Green_Hammer. -/
def is_bearish_pattern : Option Pattern → Bool
  | some Pattern.invertedHammer => true
  | some Pattern.invertedGreenHammer => true
  | _ => false

/-- Typical price (high + low + close) / 3 of one bar, indicators.py
line 86. -/
def typical_price (b : Bar) : ℚ := (b.high + b.low + b.close) / 3

/-- TechnicalIndicators.compute_avwap_from_anchor, indicators.py lines
54 to 103.  The date today is datetime.now(ist).date() injected as a
parameter.  The source builds running cumulative sums with cumsum()
and divides their last entries, which are exactly the plain totals
used here.  The anchor_price and anchor_type arguments appear only
inside a log message in the source and do not influence the result. -/
def compute_avwap_from_anchor (candles_df : List Bar) (today : Date)
    (anchor_price : ℚ) (anchor_type : String) : Option ℚ :=
  if candles_df = [] then none
  else
    let today_data := candles_df.filter (fun b => b.ts.date = today)
    if today_data = [] then none
    else
      let cum_price_volume := (today_data.map (fun b => typical_price b * b.volume)).sum
      let cum_volume := (today_data.map (fun b => b.volume)).sum
      if 0 < cum_volume then some (cum_price_volume / cum_volume) else none

/-- TechnicalIndicators.compute_relative_strength, indicators.py lines
105 to 124.  The guard is the Python truthiness test
symbol_close and reference_close and reference_close != 0, so a None
on either side, a zero reference_close, and also a zero symbol_close
(0.0 is falsy) all yield None. -/
def compute_relative_strength (symbol_close reference_close : Option ℚ) : Option ℚ :=
  match symbol_close, reference_close with
  | some s, some r => if s ≠ 0 ∧ r ≠ 0 then some (s / r - 1) else none
  | _, _ => none

/-- TechnicalIndicators.compute_previous_day_high_low, indicators.py
lines 15 to 52: the max of high and min of low over the bars of the
most recent calendar day strictly before today. -/
def compute_previous_day_high_low (candles_df : List Bar) (today : Date) :
    Option ℚ × Option ℚ :=
  if candles_df = [] then (none, none)
  else
    let prev_day_data := candles_df.filter (fun b => b.ts.date.key < today.key)
    if prev_day_data = [] then (none, none)
    else
      let latest_prev_day := (prev_day_data.map (fun b => b.ts.date.key)).foldl max 0
      let prev_day_candles := prev_day_data.filter (fun b => b.ts.date.key = latest_prev_day)
      ((prev_day_candles.map (fun b => b.high)).max?,
       (prev_day_candles.map (fun b => b.low)).min?)

/-- Python truthiness of rs combined with rs > 0, trading_engine.py
line 58 (rs and rs > 0): None and 0.0 are falsy, so the condition
holds exactly when rs is a number strictly above zero. -/
def rs_truthy_pos : Option ℚ → Bool
  | some r => decide (0 < r)
  | none => false

/-- Line 103 (rs and rs < 0), the SELL side of the rs gate. -/
def rs_truthy_neg : Option ℚ → Bool
  | some r => decide (r < 0)
  | none => false

/-- Lines 57 and 102 (measure and measure > 0): None and 0.0 are
falsy. -/
def measure_truthy_pos : Option ℚ → Bool
  | some m => decide (0 < m)
  | none => false

/-- TradingEngine.evaluate_buy_setup, trading_engine.py lines 26 to 69.
Each comparison is guarded by the truthiness of the AVWAP value
(avwap_high and close > avwap_high), so an AVWAP equal to zero is
skipped and the next branch is tried. -/
def evaluate_buy_setup (close avwap_high avwap_low : ℚ) (rs : Option ℚ)
    (pattern : Option Pattern) : Bool × Option ℚ × Option ℚ :=
  let sel : Option ℚ × Option ℚ :=
    if avwap_high ≠ 0 ∧ close > avwap_high then
      (some avwap_high, some ((close - avwap_high) / avwap_high))
    else if avwap_low ≠ 0 ∧ close > avwap_low then
      (some avwap_low, some ((close - avwap_low) / avwap_low))
    else
      (none, none)
  let avwap_used := sel.1
  let measure := sel.2
  let cmp_above_avwap := avwap_used.isSome
  let is_buy := cmp_above_avwap && measure_truthy_pos measure
    && rs_truthy_pos rs && is_bullish_pattern pattern
  (is_buy, avwap_used, measure)

/-- TradingEngine.evaluate_sell_setup, trading_engine.py lines 71 to
114, the mirror image of the BUY side. -/
def evaluate_sell_setup (close avwap_high avwap_low : ℚ) (rs : Option ℚ)
    (pattern : Option Pattern) : Bool × Option ℚ × Option ℚ :=
  let sel : Option ℚ × Option ℚ :=
    if avwap_high ≠ 0 ∧ close < avwap_high then
      (some avwap_high, some ((avwap_high - close) / avwap_high))
    else if avwap_low ≠ 0 ∧ close < avwap_low then
      (some avwap_low, some ((avwap_low - close) / avwap_low))
    else
      (none, none)
  let avwap_used := sel.1
  let measure := sel.2
  let cmp_below_avwap := avwap_used.isSome
  let is_sell := cmp_below_avwap && measure_truthy_pos measure
    && rs_truthy_neg rs && is_bearish_pattern pattern
  (is_sell, avwap_used, measure)

/-- The alert record handed to the alert sinks: the argument lists of
email_service.send_alert and TradingEngine._log_to_csv carry exactly
these fields. -/
structure AlertRecord where
  symbol : String
  signal : String
  close : ℚ
  avwap_value : Option ℚ
  avwap_anchor : String
  rs_value : Option ℚ
  pattern : Option Pattern
  measure : Option ℚ
  deriving DecidableEq, Repr

/-- Steps 7 to 9 of TradingEngine.process_symbol, lines 189 to 234:
evaluate the BUY setup, then the SELL setup, BUY taking precedence,
and build the alert record.  The anchor label comes from lines 204 and
221: prev_high exactly when the avwap value used compares equal to
avwap_high. -/
def generate_alerts (symbol_name : String) (latest_close avwap_high avwap_low : ℚ)
    (rs_value : Option ℚ) (pattern : Option Pattern) : List AlertRecord :=
  let buy := evaluate_buy_setup latest_close avwap_high avwap_low rs_value pattern
  let sell := evaluate_sell_setup latest_close avwap_high avwap_low rs_value pattern
  if buy.1 then
    [{ symbol := symbol_name, signal := "BUY", close := latest_close,
       avwap_value := buy.2.1,
       avwap_anchor := if buy.2.1 = some avwap_high then "prev_high" else "prev_low",
       rs_value := rs_value, pattern := pattern, measure := buy.2.2 }]
  else if sell.1 then
    [{ symbol := symbol_name, signal := "SELL", close := latest_close,
       avwap_value := sell.2.1,
       avwap_anchor := if sell.2.1 = some avwap_high then "prev_high" else "prev_low",
       rs_value := rs_value, pattern := pattern, measure := sell.2.2 }]
  else []

/-- The candle_id string SYMBOL_YYYYMMDD_HHMM of trading_engine.py line
137, kept structured rather than concatenated: the configured symbols
NIFTY and BANKNIFTY contain no underscore and strftime pads its fields
to fixed width, so the string and this record determine one another. -/
structure CandleKey where
  symbol : String
  date : Date
  hour : Nat
  minute : Nat
  deriving DecidableEq, Repr

/-- Line 137: the key is built from datetime.now(ist) through
strftime %Y%m%d_%H%M, which truncates the wall-clock time to the
minute.  The bars being evaluated play no part in it. -/
def candleId (symbol_name : String) (current_time : Timestamp) : CandleKey :=
  { symbol := symbol_name, date := current_time.date,
    hour := current_time.hour, minute := current_time.minute }

/-- Lines 186 to 187 of trading_engine.py: the log message interpolates
rs_value under the format specifier  .4f if rs_value else N/A  , that
is, the conditional expression was written inside the specifier rather
than around the replacement field.  Python rejects this specifier for
every possible rs_value: float.__format__ raises ValueError (Invalid
format specifier) and NoneType.__format__ raises TypeError, so the
statement raises no matter what, and the try/except wrapper of
process_symbol turns the evaluation into a False return.  The sibling
legacy implementation app.py line 516 uses the plain specifier .4f at
the same point, which formats a float but still raises TypeError when
rs_value is None. -/
def status_log_line (rs_value : Option ℚ) : Except Unit Unit := Except.error ()

/-- TradingEngine.process_symbol, trading_engine.py lines 116 to 243.
The two zerodha fetches and the clock are injected: symbol_data and
ref_data are the fetched bar lists and now is datetime.now(ist).  The
result triple is the returned Bool, the alert records handed to the
sinks during the call, and the processed_candles set after the call.
Every path returns False with no alert and the set unchanged: the
guards up to line 172 return early, and every evaluation that passes
them raises at the logging statement of lines 186 to 187 (see
status_log_line) and lands in the except handler of line 241.  The
code behind that statement, including the alert generation and the
marking of the candle id at line 237, is kept as the unreachable ok
branch of the match. -/
def process_symbol (processed_candles : Finset CandleKey) (now : Timestamp)
    (symbol_name : String) (symbol_data ref_data : List Bar) :
    Bool × List AlertRecord × Finset CandleKey :=
  let candle_id := candleId symbol_name now
  if candle_id ∈ processed_candles then
    (false, [], processed_candles)
  else if symbol_data = [] ∨ ref_data = [] then
    (false, [], processed_candles)
  else
    match symbol_data.getLast?, ref_data.getLast? with
    | some latest_candle, some latest_ref_candle =>
      let latest_close := latest_candle.close
      let ref_close := latest_ref_candle.close
      let prev := compute_previous_day_high_low symbol_data now.date
      if prev.1 = none ∨ prev.1 = some 0 ∨ prev.2 = none ∨ prev.2 = some 0 then
        (false, [], processed_candles)
      else
        let avwap_high := compute_avwap_from_anchor symbol_data now.date (prev.1.getD 0) "high"
        let avwap_low := compute_avwap_from_anchor symbol_data now.date (prev.2.getD 0) "low"
        if avwap_high = none ∨ avwap_high = some 0 ∨ avwap_low = none ∨ avwap_low = some 0 then
          (false, [], processed_candles)
        else
          let pattern := detect_pattern
            { o := some latest_candle.o, high := some latest_candle.high,
              low := some latest_candle.low, close := some latest_candle.close }
          let rs_value := compute_relative_strength (some latest_close) (some ref_close)
          match status_log_line rs_value with
          | Except.error _ => (false, [], processed_candles)
          | Except.ok _ =>
            let alerts := generate_alerts symbol_name latest_close
              (avwap_high.getD 0) (avwap_low.getD 0) rs_value pattern
            (!alerts.isEmpty, alerts, insert candle_id processed_candles)
    | _, _ => (false, [], processed_candles)

/-- TradingEngine.cleanup_old_processed_candles, lines 292 to 303:
keep exactly the keys whose date field (the YYYYMMDD part of the id
string) is the current date. -/
def cleanup_old_processed_candles (processed_candles : Finset CandleKey)
    (current_date : Date) : Finset CandleKey :=
  processed_candles.filter (fun k => k.date = current_date)

/-- Rule one of detect_pattern (Green Hammer), spelled as a predicate. -/
abbrev isGreenHammer (o h l c : ℚ) : Prop :=
  c > o ∧ o - l > 2 * (c - o) ∧ h ≥ c ∧ o - l > h - c

/-- Rule two of detect_pattern (Red Hammer). -/
abbrev isRedHammer (o h l c : ℚ) : Prop :=
  c < o ∧ c - l > 2 * (o - c) ∧ h ≥ o ∧ c - l > h - o

/-- Rule three of detect_pattern (Inverted Hammer). -/
abbrev isInvertedHammer (o h l c : ℚ) : Prop :=
  c < o ∧ h - o > 2 * (o - c) ∧ l ≤ c ∧ h - o > c - l

/-- Rule four of detect_pattern (Inverted Green Hammer). -/
abbrev isInvertedGreenHammer (o h l c : ℚ) : Prop :=
  c > o ∧ h - c > 2 * (c - o) ∧ l ≤ o ∧ h - c > o - l

/-- The rule belonging to each pattern class. -/
def patternCond : Pattern → ℚ → ℚ → ℚ → ℚ → Prop
  | Pattern.greenHammer => isGreenHammer
  | Pattern.redHammer => isRedHammer
  | Pattern.invertedHammer => isInvertedHammer
  | Pattern.invertedGreenHammer => isInvertedGreenHammer

/-- Modelled from the claim wording for the BUY rule (spec section
4.4): the comparison is picked purely by close > avwapHigh, then by
close > avwapLow, with no truthiness guard on the AVWAP values, and
the signal fires iff a comparison was found, the measure is positive,
rs is positive and the pattern is bullish.  Division by a zero AVWAP
follows the Lean convention x / 0 = 0; the component on which the
counterexample rests, the selected avwap_used, involves no division.
This definition exists only to be compared against
evaluate_buy_setup. -/
def buy_setup_claim (close avwap_high avwap_low rs : ℚ)
    (pattern : Option Pattern) : Bool × Option ℚ × Option ℚ :=
  let sel : Option ℚ × Option ℚ :=
    if close > avwap_high then
      (some avwap_high, some ((close - avwap_high) / avwap_high))
    else if close > avwap_low then
      (some avwap_low, some ((close - avwap_low) / avwap_low))
    else
      (none, none)
  let fires := sel.1.isSome && measure_truthy_pos sel.2 && decide (0 < rs)
    && is_bullish_pattern pattern
  (fires, sel.1, sel.2)

/-- Modelled from the claim wording for the dedup key (spec section 3,
ProcessedKey): the symbol together with the own
timestamp of the evaluated bar truncated to the minute.  This definition exists only to be
compared against candleId, the key the code actually builds. -/
def bar_minute_key (symbol_name : String) (bar : Bar) : CandleKey :=
  { symbol := symbol_name, date := bar.ts.date,
    hour := bar.ts.hour, minute := bar.ts.minute }

/-! Concrete scenario data reused by the witnesses: a previous-day bar,
a today bar matching scenario A of the spec (o 100, h 102, l 95,
c 101), a zero-volume copy of it, and a benchmark bar with close 100,
evaluated at wall-clock 10:30:07 while the today bar is stamped
10:25:00. -/

def dPrev : Date := { year := 2025, month := 9, day := 15 }

def dToday : Date := { year := 2025, month := 9, day := 16 }

def tsNow : Timestamp := { date := dToday, hour := 10, minute := 30, second := 7 }

def barPrev : Bar :=
  { ts := { date := dPrev, hour := 9, minute := 15, second := 0 },
    o := 99, high := 100, low := 98, close := 99, volume := 10 }

def barToday : Bar :=
  { ts := { date := dToday, hour := 10, minute := 25, second := 0 },
    o := 100, high := 102, low := 95, close := 101, volume := 10 }

def barTodayZeroVol : Bar :=
  { ts := { date := dToday, hour := 10, minute := 25, second := 0 },
    o := 100, high := 102, low := 95, close := 101, volume := 0 }

def barRef : Bar :=
  { ts := { date := dToday, hour := 10, minute := 25, second := 0 },
    o := 100, high := 100, low := 100, close := 100, volume := 5 }

/-- Every control path of process_symbol returns False, emits no alert
record and leaves the processed set untouched: the early guards return
that triple directly, and the paths that get past them stop at the
raising logging statement modelled by status_log_line. -/
theorem process_symbol_const (st : Finset CandleKey) (now : Timestamp)
    (symbol_name : String) (symbol_data ref_data : List Bar) :
    process_symbol st now symbol_name symbol_data ref_data = (false, [], st) := by
  simp only [process_symbol, status_log_line]
  repeat' split
  all_goals rfl

/-- Summing r * f x over a list is r times the sum of f x. -/
theorem sum_map_const_mul (L : List Bar) (r : ℚ) (f : Bar → ℚ) :
    (L.map (fun x => r * f x)).sum = r * (L.map f).sum := by
  induction L with
  | nil => simp
  | cons x xs ih => simp [ih, mul_add]

/-- Claim C9: the result of compute_avwap_from_anchor does not depend
on the anchor_price and anchor_type arguments; in particular the
prev-high anchored call and the prev-low anchored call on the same
bars return the identical value, or are both undefined. -/
theorem avwap_independent_of_anchor (candles : List Bar) (today : Date)
    (anchor_price1 anchor_price2 : ℚ) (anchor_type1 anchor_type2 : String) :
    compute_avwap_from_anchor candles today anchor_price1 anchor_type1 =
      compute_avwap_from_anchor candles today anchor_price2 anchor_type2 := rfl

/-- Counterexample to claim C5: with symbolClose 0 and referenceClose
2, neither value is missing and referenceClose is not zero, so the
claim demands the value (0 / 2) - 1; the code returns None, because
the truthiness guard also rejects a zero symbol_close. -/
theorem compute_relative_strength_counterexample :
    compute_relative_strength (some 0) (some 2) = none ∧
    compute_relative_strength (some 0) (some 2) ≠ some ((0 : ℚ) / 2 - 1) := by
  constructor
  · rfl
  · intro hcontra
    exact Option.noConfusion hcontra

/-- Claim C5 as amended: compute_relative_strength returns
(symbolClose / referenceClose) - 1, and returns None if and only if
either value is missing, or referenceClose is zero, or also
symbolClose is zero (the truthiness guard of the source). -/
theorem compute_relative_strength_spec (s r : Option ℚ) :
    (compute_relative_strength s r = none ↔
      s = none ∨ r = none ∨ s = some 0 ∨ r = some 0) ∧
    (∀ sv rv : ℚ, sv ≠ 0 → rv ≠ 0 →
      compute_relative_strength (some sv) (some rv) = some (sv / rv - 1)) := by
  constructor
  · rcases s with _ | sv <;> rcases r with _ | rv <;>
      simp [compute_relative_strength]
    by_cases hs : sv = 0
    · simp [hs]
    · by_cases hr : rv = 0 <;> simp [hs, hr]
  · intro sv rv hs hr
    simp [compute_relative_strength, hs, hr]

/-- Witness for the amended claim C5 at symbolClose 3,
referenceClose 2. -/
theorem compute_relative_strength_spec_witness :
    compute_relative_strength (some 3) (some 2) = some ((3 : ℚ) / 2 - 1) :=
  (compute_relative_strength_spec (some 3) (some 2)).2 3 2
    (by norm_num) (by norm_num)

/-- The bullish test succeeds exactly on Green_Hammer and Red_Hammer. -/
theorem is_bullish_pattern_iff (p : Option Pattern) :
    is_bullish_pattern p = true ↔
      p = some Pattern.greenHammer ∨ p = some Pattern.redHammer := by
  cases p with
  | none => simp [is_bullish_pattern]
  | some q => cases q <;> simp [is_bullish_pattern]

/-- Counterexample to claim C1: at close 1, avwapHigh 0, avwapLow 1/2,
rs 1, pattern GreenHammer, the rule of the claim picks avwapHigh because
close > avwapHigh holds, reporting avwapUsed 0 and no BUY, while the
truthiness guard of the code skips the zero avwapHigh, picks avwapLow, and
fires BUY with avwapUsed 1/2 and measure 1. -/
theorem buy_setup_counterexample :
    buy_setup_claim 1 0 (1 / 2) 1 (some Pattern.greenHammer) = (false, some 0, some 0) ∧
    evaluate_buy_setup 1 0 (1 / 2) (some 1) (some Pattern.greenHammer) =
      (true, some (1 / 2), some 1) ∧
    buy_setup_claim 1 0 (1 / 2) 1 (some Pattern.greenHammer) ≠
      evaluate_buy_setup 1 0 (1 / 2) (some 1) (some Pattern.greenHammer) := by
  have hclaim : buy_setup_claim 1 0 (1 / 2) 1 (some Pattern.greenHammer) =
      (false, some 0, some 0) := by
    norm_num [buy_setup_claim, measure_truthy_pos, is_bullish_pattern]
  have hcode : evaluate_buy_setup 1 0 (1 / 2) (some 1) (some Pattern.greenHammer) =
      (true, some (1 / 2), some 1) := by
    norm_num [evaluate_buy_setup, measure_truthy_pos, rs_truthy_pos, is_bullish_pattern]
  refine ⟨hclaim, hcode, ?_⟩
  rw [hclaim, hcode]
  simp

/-- Claim C1 as amended: the comparison picking carries the
truthiness guard, so a zero AVWAP level is skipped.  If avwapHigh ≠ 0
and close > avwapHigh the comparison uses avwapHigh with measure
(close - avwapHigh) / avwapHigh; otherwise, if avwapLow ≠ 0 and
close > avwapLow, it uses avwapLow likewise; otherwise no comparison
is found.  The result is BUY iff a comparison was found, the measure
is positive, rs is positive and the pattern is GreenHammer or
RedHammer.  In the particular instance close 101, avwapHigh 97.5,
rs 0.02, pattern GreenHammer the result is BUY with avwapUsed 97.5 and
measure (101 - 97.5) / 97.5 = 7 / 195, whatever avwapLow is. -/
theorem evaluate_buy_setup_characterization (close ah al rs : ℚ) (p : Option Pattern) :
    (ah ≠ 0 ∧ close > ah →
      (evaluate_buy_setup close ah al (some rs) p).2.1 = some ah ∧
      (evaluate_buy_setup close ah al (some rs) p).2.2 = some ((close - ah) / ah)) ∧
    (¬(ah ≠ 0 ∧ close > ah) → al ≠ 0 ∧ close > al →
      (evaluate_buy_setup close ah al (some rs) p).2.1 = some al ∧
      (evaluate_buy_setup close ah al (some rs) p).2.2 = some ((close - al) / al)) ∧
    (¬(ah ≠ 0 ∧ close > ah) → ¬(al ≠ 0 ∧ close > al) →
      evaluate_buy_setup close ah al (some rs) p = (false, none, none)) ∧
    ((evaluate_buy_setup close ah al (some rs) p).1 = true ↔
      (evaluate_buy_setup close ah al (some rs) p).2.1 ≠ none ∧
      (∃ m, (evaluate_buy_setup close ah al (some rs) p).2.2 = some m ∧ 0 < m) ∧
      0 < rs ∧ (p = some Pattern.greenHammer ∨ p = some Pattern.redHammer)) ∧
    (∀ al2 : ℚ,
      evaluate_buy_setup 101 (195 / 2) al2 (some (1 / 50)) (some Pattern.greenHammer) =
        (true, some (195 / 2), some (7 / 195))) := by
  refine ⟨?_, ?_, ?_, ?_, ?_⟩
  · intro h1
    simp [evaluate_buy_setup, h1.1, h1.2]
  · intro h1 h2
    simp [evaluate_buy_setup, h1, h2.1, h2.2]
  · intro h1 h2
    simp [evaluate_buy_setup, h1, h2]
  · by_cases h1 : ah ≠ 0 ∧ close > ah
    · simp [evaluate_buy_setup, h1.1, h1.2, measure_truthy_pos, rs_truthy_pos,
        is_bullish_pattern_iff]
      tauto
    · by_cases h2 : al ≠ 0 ∧ close > al
      · simp [evaluate_buy_setup, h1, h2.1, h2.2, measure_truthy_pos, rs_truthy_pos,
          is_bullish_pattern_iff]
        tauto
      · simp [evaluate_buy_setup, h1, h2]
  · intro al2
    simp only [evaluate_buy_setup]
    split_ifs with hc1 hc2
    · norm_num [measure_truthy_pos, rs_truthy_pos, is_bullish_pattern]
    · exact absurd (by norm_num) hc1
    · exact absurd (by norm_num) hc1

/-- Witness for the amended claim C1: the high branch applied at
close 101, avwapHigh 97.5, avwapLow 90, rs 0.02, GreenHammer. -/
theorem evaluate_buy_setup_characterization_witness :
    (evaluate_buy_setup 101 (195 / 2) 90 (some (1 / 50)) (some Pattern.greenHammer)).2.1 =
      some (195 / 2) ∧
    (evaluate_buy_setup 101 (195 / 2) 90 (some (1 / 50)) (some Pattern.greenHammer)).2.2 =
      some ((101 - 195 / 2) / (195 / 2)) :=
  (evaluate_buy_setup_characterization 101 (195 / 2) 90 (1 / 50)
    (some Pattern.greenHammer)).1 (by norm_num)

/-- Claim C3: on numeric fields detect_pattern tries the four rules in
the listed order and returns the first match, or none; a missing or
non-numeric field yields none. -/
theorem detect_pattern_first_match (o h l c : ℚ) :
    (detect_pattern { o := some o, high := some h, low := some l, close := some c } =
      if isGreenHammer o h l c then some Pattern.greenHammer
      else if isRedHammer o h l c then some Pattern.redHammer
      else if isInvertedHammer o h l c then some Pattern.invertedHammer
      else if isInvertedGreenHammer o h l c then some Pattern.invertedGreenHammer
      else none) ∧
    (∀ b : Ohlc, b.o = none ∨ b.high = none ∨ b.low = none ∨ b.close = none →
      detect_pattern b = none) := by
  constructor
  · rfl
  · intro b hb
    rcases b with ⟨bo, bh, bl, bc⟩
    rcases bo with _ | vo <;> rcases bh with _ | vh <;> rcases bl with _ | vl <;>
      rcases bc with _ | vc <;> first | rfl | simp_all

/-- Witness for claim C3: a bar with a missing open field detects no
pattern. -/
theorem detect_pattern_first_match_witness :
    detect_pattern { o := none, high := some 1, low := some 1, close := some 1 } = none :=
  (detect_pattern_first_match 0 0 0 0).2
    { o := none, high := some 1, low := some 1, close := some 1 } (Or.inl rfl)

/-- Claim C4: the four pattern rules are pairwise mutually exclusive,
and detect_pattern on numeric fields returns some p exactly when the
rule of p holds, so the result is the unique matching class, or none,
independent of the order in which the rules are tried. -/
theorem detect_pattern_exclusive (o h l c : ℚ) :
    ¬(isGreenHammer o h l c ∧ isRedHammer o h l c) ∧
    ¬(isGreenHammer o h l c ∧ isInvertedHammer o h l c) ∧
    ¬(isGreenHammer o h l c ∧ isInvertedGreenHammer o h l c) ∧
    ¬(isRedHammer o h l c ∧ isInvertedHammer o h l c) ∧
    ¬(isRedHammer o h l c ∧ isInvertedGreenHammer o h l c) ∧
    ¬(isInvertedHammer o h l c ∧ isInvertedGreenHammer o h l c) ∧
    ∀ p : Pattern,
      detect_pattern { o := some o, high := some h, low := some l, close := some c } =
          some p ↔ patternCond p o h l c := by
  have exGR : ¬(isGreenHammer o h l c ∧ isRedHammer o h l c) := by
    rintro ⟨hg, hr⟩; linarith [hg.1, hr.1]
  have exGI : ¬(isGreenHammer o h l c ∧ isInvertedHammer o h l c) := by
    rintro ⟨hg, hi⟩; linarith [hg.1, hi.1]
  have exGIG : ¬(isGreenHammer o h l c ∧ isInvertedGreenHammer o h l c) := by
    rintro ⟨hg, hig⟩; linarith [hg.2.2.2, hig.2.2.2]
  have exRI : ¬(isRedHammer o h l c ∧ isInvertedHammer o h l c) := by
    rintro ⟨hr, hi⟩; linarith [hr.2.2.2, hi.2.2.2]
  have exRIG : ¬(isRedHammer o h l c ∧ isInvertedGreenHammer o h l c) := by
    rintro ⟨hr, hig⟩; linarith [hr.1, hig.1]
  have exIIG : ¬(isInvertedHammer o h l c ∧ isInvertedGreenHammer o h l c) := by
    rintro ⟨hi, hig⟩; linarith [hi.1, hig.1]
  refine ⟨exGR, exGI, exGIG, exRI, exRIG, exIIG, ?_⟩
  intro p
  cases p with
  | greenHammer =>
    simp only [detect_pattern, patternCond]
    split_ifs with h1 h2 h3 h4
    · exact ⟨fun _ => h1, fun _ => rfl⟩
    · exact iff_of_false (by simp) (fun hg => exGR ⟨hg, h2⟩)
    · exact iff_of_false (by simp) (fun hg => exGI ⟨hg, h3⟩)
    · exact iff_of_false (by simp) (fun hg => exGIG ⟨hg, h4⟩)
    · exact iff_of_false (by simp) h1
  | redHammer =>
    simp only [detect_pattern, patternCond]
    split_ifs with h1 h2 h3 h4
    · exact iff_of_false (by simp) (fun hr => exGR ⟨h1, hr⟩)
    · exact ⟨fun _ => h2, fun _ => rfl⟩
    · exact iff_of_false (by simp) (fun hr => exRI ⟨hr, h3⟩)
    · exact iff_of_false (by simp) (fun hr => exRIG ⟨hr, h4⟩)
    · exact iff_of_false (by simp) h2
  | invertedHammer =>
    simp only [detect_pattern, patternCond]
    split_ifs with h1 h2 h3 h4
    · exact iff_of_false (by simp) (fun hi => exGI ⟨h1, hi⟩)
    · exact iff_of_false (by simp) (fun hi => exRI ⟨h2, hi⟩)
    · exact ⟨fun _ => h3, fun _ => rfl⟩
    · exact iff_of_false (by simp) (fun hi => exIIG ⟨hi, h4⟩)
    · exact iff_of_false (by simp) h3
  | invertedGreenHammer =>
    simp only [detect_pattern, patternCond]
    split_ifs with h1 h2 h3 h4
    · exact iff_of_false (by simp) (fun hig => exGIG ⟨h1, hig⟩)
    · exact iff_of_false (by simp) (fun hig => exRIG ⟨h2, hig⟩)
    · exact iff_of_false (by simp) (fun hig => exIIG ⟨h3, hig⟩)
    · exact ⟨fun _ => h4, fun _ => rfl⟩
    · exact iff_of_false (by simp) h4

/-- Witness for claim C4: the scenario A bar o 100, h 102, l 95, c 101
satisfies the GreenHammer rule and detects as GreenHammer. -/
theorem detect_pattern_exclusive_witness :
    detect_pattern { o := some 100, high := some 102, low := some 95, close := some 101 } =
      some Pattern.greenHammer :=
  ((detect_pattern_exclusive 100 102 95 101).2.2.2.2.2.2 Pattern.greenHammer).mpr
    (show isGreenHammer 100 102 95 101 by norm_num [isGreenHammer])

/-- Evaluation of compute_avwap_from_anchor in the defined case: with
at least one today bar and positive cumulative volume the result is
the quotient of the two cumulative sums. -/
theorem avwap_eval_defined (candles : List Bar) (today : Date)
    (anchor_price : ℚ) (anchor_type : String)
    (hne : candles.filter (fun b => b.ts.date = today) ≠ [])
    (hpos : 0 < ((candles.filter (fun b => b.ts.date = today)).map
      (fun b => b.volume)).sum) :
    compute_avwap_from_anchor candles today anchor_price anchor_type =
      some (((candles.filter (fun b => b.ts.date = today)).map
          (fun b => typical_price b * b.volume)).sum /
        ((candles.filter (fun b => b.ts.date = today)).map (fun b => b.volume)).sum) := by
  have hc : ¬candles = [] := by
    intro hc0
    rw [hc0] at hne
    exact hne rfl
  simp only [compute_avwap_from_anchor]
  rw [if_neg hc, if_neg hne, if_pos hpos]

/-- Evaluation of compute_avwap_from_anchor in the undefined case:
no today bar, or zero cumulative volume, gives none. -/
theorem avwap_eval_undefined (candles : List Bar) (today : Date)
    (anchor_price : ℚ) (anchor_type : String)
    (hd : candles.filter (fun b => b.ts.date = today) = [] ∨
      ((candles.filter (fun b => b.ts.date = today)).map (fun b => b.volume)).sum = 0) :
    compute_avwap_from_anchor candles today anchor_price anchor_type = none := by
  by_cases hc : candles = []
  · simp [compute_avwap_from_anchor, hc]
  · rcases hd with hd | hd
    · simp only [compute_avwap_from_anchor]
      rw [if_neg hc, if_pos hd]
    · by_cases hne : candles.filter (fun b => b.ts.date = today) = []
      · simp only [compute_avwap_from_anchor]
        rw [if_neg hc, if_pos hne]
      · simp only [compute_avwap_from_anchor]
        rw [if_neg hc, if_neg hne, if_neg]
        exact fun hx => absurd (hd ▸ hx) (lt_irrefl 0)

/-- Evaluation of compute_avwap_from_anchor when a single today bar
carries all the volume: the result is the typical price of that bar. -/
theorem avwap_single_volume_bar (candles : List Bar) (today : Date)
    (anchor_price : ℚ) (anchor_type : String)
    (hvol : ∀ b ∈ candles, 0 ≤ b.volume)
    (b : Bar) (hb : b ∈ candles.filter (fun b => b.ts.date = today))
    (hbv : 0 < b.volume)
    (hothers : ∀ b2 ∈ candles.filter (fun b => b.ts.date = today),
      b2 ≠ b → b2.volume = 0) :
    compute_avwap_from_anchor candles today anchor_price anchor_type =
      some (typical_price b) := by
  have hnn : ∀ x ∈ (candles.filter (fun b => b.ts.date = today)).map (fun b => b.volume),
      0 ≤ x := by
    intro x hx
    obtain ⟨b2, hb2, rfl⟩ := List.mem_map.1 hx
    exact hvol b2 (List.mem_of_mem_filter hb2)
  have hble : b.volume ≤
      ((candles.filter (fun b => b.ts.date = today)).map (fun b => b.volume)).sum :=
    List.single_le_sum hnn _ (List.mem_map_of_mem _ hb)
  have hpos : 0 < ((candles.filter (fun b => b.ts.date = today)).map
      (fun b => b.volume)).sum := lt_of_lt_of_le hbv hble
  have hmapeq : (candles.filter (fun b => b.ts.date = today)).map
      (fun x => typical_price x * x.volume) =
      (candles.filter (fun b => b.ts.date = today)).map
      (fun x => typical_price b * x.volume) := by
    apply List.map_congr_left
    intro x hx
    by_cases hxb : x = b
    · rw [hxb]
    · rw [hothers x hx hxb]
      ring
  have hrun := avwap_eval_defined candles today anchor_price anchor_type
    (List.ne_nil_of_mem hb) hpos
  rw [hrun, hmapeq, sum_map_const_mul, mul_div_assoc, div_self (ne_of_gt hpos), mul_one]

/-- Claim C2: with at least one today bar and positive cumulative
volume, compute_avwap_from_anchor is the volume-weighted mean of the
typical prices of the today bars; with no today bar or zero cumulative
volume it is none, never the number zero; and when exactly one today
bar carries positive volume and every other today bar has volume zero,
the result is the typical price of that bar. -/
theorem compute_avwap_spec (candles : List Bar) (today : Date)
    (anchor_price : ℚ) (anchor_type : String)
    (hvol : ∀ b ∈ candles, 0 ≤ b.volume) :
    (candles.filter (fun b => b.ts.date = today) ≠ [] →
      0 < ((candles.filter (fun b => b.ts.date = today)).map (fun b => b.volume)).sum →
      compute_avwap_from_anchor candles today anchor_price anchor_type =
        some (((candles.filter (fun b => b.ts.date = today)).map
            (fun b => typical_price b * b.volume)).sum /
          ((candles.filter (fun b => b.ts.date = today)).map (fun b => b.volume)).sum)) ∧
    ((candles.filter (fun b => b.ts.date = today) = [] ∨
      ((candles.filter (fun b => b.ts.date = today)).map (fun b => b.volume)).sum = 0) →
      compute_avwap_from_anchor candles today anchor_price anchor_type = none) ∧
    (∀ b ∈ candles.filter (fun b => b.ts.date = today), 0 < b.volume →
      (∀ b2 ∈ candles.filter (fun b => b.ts.date = today), b2 ≠ b → b2.volume = 0) →
      compute_avwap_from_anchor candles today anchor_price anchor_type =
        some (typical_price b)) :=
  ⟨avwap_eval_defined candles today anchor_price anchor_type,
   avwap_eval_undefined candles today anchor_price anchor_type,
   fun b hb hbv hothers =>
     avwap_single_volume_bar candles today anchor_price anchor_type hvol b hb hbv hothers⟩

/-- Witness for claim C2, the degenerate case: of the two bars only the
today bar has volume, so the AVWAP is its typical price. -/
theorem compute_avwap_spec_witness :
    compute_avwap_from_anchor [barPrev, barToday] dToday 100 "high" =
      some (typical_price barToday) :=
  (compute_avwap_spec [barPrev, barToday] dToday 100 "high" (by decide)).2.2
    barToday (by decide) (by decide) (by decide)

/-- Claim C6: when the bar series is empty or missing, or the AVWAP
cannot be computed (the anchor arguments being irrelevant to its
value), or the relative strength of the latest closes cannot be
computed, or every today bar has zero volume, process_symbol aborts:
it returns False, hands no record to the alert sinks, and leaves the
processed_candles set unchanged, so the same bar may be retried.  The
relative-strength case aborts through the raising logging statement of
lines 186 to 187 rather than through a dedicated guard. -/
theorem process_symbol_abort_no_mark (st : Finset CandleKey) (now : Timestamp)
    (symbol_name : String) (symbol_data ref_data : List Bar)
    (habort : symbol_data = [] ∨ ref_data = []
      ∨ compute_avwap_from_anchor symbol_data now.date 0 "high" = none
      ∨ compute_relative_strength ((symbol_data.getLast?).map Bar.close)
          ((ref_data.getLast?).map Bar.close) = none
      ∨ ∀ b ∈ symbol_data, b.ts.date = now.date → b.volume = 0) :
    process_symbol st now symbol_name symbol_data ref_data = (false, [], st) :=
  process_symbol_const st now symbol_name symbol_data ref_data

/-- Witness for claim C6, scenario C of the spec: every today bar has
zero volume, the AVWAP is undefined, and the evaluation returns no
signal and records no dedup mark. -/
theorem process_symbol_abort_no_mark_witness :
    (∀ b ∈ [barPrev, barTodayZeroVol], b.ts.date = tsNow.date → b.volume = 0) ∧
    compute_avwap_from_anchor [barPrev, barTodayZeroVol] tsNow.date 0 "high" = none ∧
    process_symbol ∅ tsNow "NIFTY" [barPrev, barTodayZeroVol] [barRef] = (false, [], ∅) := by
  refine ⟨by decide, ?_,
    process_symbol_abort_no_mark ∅ tsNow "NIFTY" [barPrev, barTodayZeroVol] [barRef]
      (Or.inr (Or.inr (Or.inr (Or.inr (by decide)))))⟩
  refine avwap_eval_undefined [barPrev, barTodayZeroVol] tsNow.date 0 "high" (Or.inr ?_)
  rw [show List.filter (fun b => decide (b.ts.date = tsNow.date))
      [barPrev, barTodayZeroVol] = [barTodayZeroVol] from by decide]
  simp [barTodayZeroVol]

/-- The code bug behind claim C7, exhibited on a concrete complete
scenario: the day-rollover purge removes the key of the previous day; the
previous-day extremes, the AVWAP, the pattern and the relative
strength all exist on this data; the alert logic of lines 189 to 234
fires a BUY with anchor prev_high on exactly these values; yet
process_symbol returns False with no alert record and no key marked,
because every evaluation that reaches line 186 stops at the raising
logging statement.  No input can make process_symbol alert or mark a
key, so a completed evaluation never commits its dedup key and the
purged minute key can never alert again. -/
theorem process_symbol_never_completes :
    cleanup_old_processed_candles
      {candleId "NIFTY" { date := dPrev, hour := 10, minute := 30, second := 0 }} dToday = ∅ ∧
    compute_previous_day_high_low [barPrev, barToday] tsNow.date = (some 100, some 98) ∧
    compute_avwap_from_anchor [barPrev, barToday] tsNow.date 100 "high" = some (298 / 3) ∧
    detect_pattern { o := some 100, high := some 102, low := some 95, close := some 101 } =
      some Pattern.greenHammer ∧
    compute_relative_strength (some 101) (some 100) = some (1 / 100) ∧
    generate_alerts "NIFTY" 101 (298 / 3) (298 / 3) (some (1 / 100))
        (some Pattern.greenHammer) =
      [{ symbol := "NIFTY", signal := "BUY", close := 101, avwap_value := some (298 / 3),
         avwap_anchor := "prev_high", rs_value := some (1 / 100),
         pattern := some Pattern.greenHammer, measure := some (5 / 298) }] ∧
    process_symbol ∅ tsNow "NIFTY" [barPrev, barToday] [barRef] = (false, [], ∅) := by
  refine ⟨?_, ?_, ?_, by norm_num [detect_pattern], ?_, ?_,
    process_symbol_const ∅ tsNow "NIFTY" [barPrev, barToday] [barRef]⟩
  · simp [cleanup_old_processed_candles, candleId, Finset.filter_singleton, dPrev, dToday]
  · decide
  · have h3 := avwap_single_volume_bar [barPrev, barToday] tsNow.date 100 "high"
      (by decide) barToday (by decide) (by decide) (by decide)
    rw [h3]
    norm_num [typical_price, barToday]
  · norm_num [compute_relative_strength]
  · norm_num [generate_alerts, evaluate_buy_setup, evaluate_sell_setup,
      measure_truthy_pos, rs_truthy_pos, is_bullish_pattern, is_bearish_pattern]

/-- Counterexample to claim C8: the key process_symbol builds and
checks at line 137 comes from the wall clock, not from the evaluated
bar.  At wall-clock 10:30:07 the evaluated today bar is stamped
10:25:00, and the key carries minute 30 of the wall clock, not
minute 25 of the bar, so the key is not determined by the symbol and the
timestamp of the bar. -/
theorem candle_key_counterexample :
    candleId "NIFTY" tsNow =
      { symbol := "NIFTY", date := dToday, hour := 10, minute := 30 } ∧
    bar_minute_key "NIFTY" barToday =
      { symbol := "NIFTY", date := dToday, hour := 10, minute := 25 } ∧
    candleId "NIFTY" tsNow ≠ bar_minute_key "NIFTY" barToday := by
  refine ⟨rfl, rfl, by decide⟩

/-- Claim C8 as amended: the dedup key is the symbol together with the
wall-clock evaluation time truncated to the minute (strftime
%Y%m%d_%H%M of datetime.now), independent of the seconds of the wall clock
and of the evaluated bars; and a key already in the set makes
process_symbol skip the evaluation, returning False with no alert and
the set unchanged. -/
theorem candle_key_uses_wall_clock (symbol_name : String) (now : Timestamp) :
    candleId symbol_name now =
      { symbol := symbol_name, date := now.date, hour := now.hour,
        minute := now.minute } ∧
    (∀ now2 : Timestamp, now2.date = now.date → now2.hour = now.hour →
      now2.minute = now.minute → candleId symbol_name now2 = candleId symbol_name now) ∧
    (∀ (st : Finset CandleKey) (symbol_data ref_data : List Bar),
      candleId symbol_name now ∈ st →
      process_symbol st now symbol_name symbol_data ref_data = (false, [], st)) := by
  refine ⟨rfl, ?_, ?_⟩
  · intro now2 hd hh hm
    simp [candleId, hd, hh, hm]
  · intro st symbol_data ref_data hmem
    exact process_symbol_const st now symbol_name symbol_data ref_data

/-- Witness for the amended claim C8: the seconds value 7 of the wall clock is
dropped from the key, and an already-marked key makes the evaluation
skip. -/
theorem candle_key_uses_wall_clock_witness :
    candleId "NIFTY" { date := dToday, hour := 10, minute := 30, second := 0 } =
      candleId "NIFTY" tsNow ∧
    process_symbol {candleId "NIFTY" tsNow} tsNow "NIFTY" [barPrev, barToday] [barRef] =
      (false, [], {candleId "NIFTY" tsNow}) :=
  ⟨(candle_key_uses_wall_clock "NIFTY" tsNow).2.1
      { date := dToday, hour := 10, minute := 30, second := 0 } rfl rfl rfl,
   (candle_key_uses_wall_clock "NIFTY" tsNow).2.2
      {candleId "NIFTY" tsNow} [barPrev, barToday] [barRef]
      (Finset.mem_singleton_self (candleId "NIFTY" tsNow))⟩

/-- Claim C10: the two AVWAP calls of process_symbol are computed from
the same bar data and agree for any anchor arguments, so the avwap
high and low values fed to the alert logic coincide; and with
coinciding AVWAP inputs every alert record built by the logic of lines
189 to 234 carries the anchor label prev_high: the avwap_low branch is
never the selected comparison of a fired alert and prev_low is never
emitted. -/
theorem alert_anchor_always_prev_high (candles : List Bar) (today : Date)
    (prev_high prev_low : ℚ) (symbol_name : String) (close av : ℚ)
    (rs : Option ℚ) (p : Option Pattern) :
    compute_avwap_from_anchor candles today prev_high "high" =
      compute_avwap_from_anchor candles today prev_low "low" ∧
    ∀ r ∈ generate_alerts symbol_name close av av rs p,
      r.avwap_anchor = "prev_high" := by
  refine ⟨rfl, ?_⟩
  have hbuy : (evaluate_buy_setup close av av rs p).1 = true →
      (evaluate_buy_setup close av av rs p).2.1 = some av := by
    by_cases hb : av ≠ 0 ∧ close > av
    · intro _
      simp [evaluate_buy_setup, hb.1, hb.2]
    · intro hq
      exfalso
      simp [evaluate_buy_setup, hb] at hq
  have hsell : (evaluate_sell_setup close av av rs p).1 = true →
      (evaluate_sell_setup close av av rs p).2.1 = some av := by
    by_cases hb : av ≠ 0 ∧ close < av
    · intro _
      simp [evaluate_sell_setup, hb.1, hb.2]
    · intro hq
      exfalso
      simp [evaluate_sell_setup, hb] at hq
  intro r hr
  simp only [generate_alerts] at hr
  by_cases h1 : (evaluate_buy_setup close av av rs p).1 = true
  · rw [if_pos h1] at hr
    simp only [List.mem_singleton] at hr
    subst hr
    show (if (evaluate_buy_setup close av av rs p).2.1 = some av then "prev_high"
      else "prev_low") = "prev_high"
    rw [if_pos (hbuy h1)]
  · rw [if_neg h1] at hr
    by_cases h2 : (evaluate_sell_setup close av av rs p).1 = true
    · rw [if_pos h2] at hr
      simp only [List.mem_singleton] at hr
      subst hr
      show (if (evaluate_sell_setup close av av rs p).2.1 = some av then "prev_high"
        else "prev_low") = "prev_high"
      rw [if_pos (hsell h2)]
    · rw [if_neg h2] at hr
      simp at hr

/-- Witness for claim C10: with both AVWAP inputs 97.5 the alert logic
fires a BUY whose record carries anchor prev_high. -/
theorem alert_anchor_always_prev_high_witness :
    AlertRecord.avwap_anchor
      { symbol := "NIFTY", signal := "BUY", close := 101, avwap_value := some (195 / 2),
        avwap_anchor := "prev_high", rs_value := some (1 / 50),
        pattern := some Pattern.greenHammer, measure := some (7 / 195) } = "prev_high" := by
  refine (alert_anchor_always_prev_high [] dToday 0 0 "NIFTY" 101 (195 / 2)
    (some (1 / 50)) (some Pattern.greenHammer)).2 _ ?_
  norm_num [generate_alerts, evaluate_buy_setup, evaluate_sell_setup, measure_truthy_pos,
    rs_truthy_pos, is_bullish_pattern, is_bearish_pattern]

end TradingAlert
